import Mathlib

/-!
# Azure secrets backend: client cache and root-rotation arming

A shallow embedding of `backend.go` (package `azuresecrets`): the cached
client of `azureSecretBackend`, its `reset` / `invalidate` / `getClient`
operations and the scheduler arming done by the backend's `initialize` hook.

Conventions of the embedding

* A Go pointer is an `Option`; `nil` is `none`.
* Instants and durations are integers (nanoseconds); instant `0` stands for
  the zero value of `time.Time`.
* The read/write lock only serialises callers; the embedding describes one
  call running alone, so the lock operations do not appear.
* The collaborators (`getConfig`, `getClientSettings`, `b.getProvider`,
  `time.Now`, `ticker.Run`) are not in `backend.go`; what they answer during
  one call is given by a `World` record, and every call made is recorded.
-/

namespace AzureSecrets

/-! ## Data model -/

/-- Go error values: a plain error, or the result of `fmt.Errorf` with the
`%w` verb, which puts a fixed message in front of a wrapped error. -/
inductive GoError where
  | plain (msg : String)
  | wrapped (msg : String) (inner : GoError)
  deriving DecidableEq, Repr

/-- The error wrapped by `fmt.Errorf("...%w", err)`, as `errors.Unwrap` gives it. -/
def GoError.Unwrap : GoError → Option GoError
  | .plain _ => none
  | .wrapped _ inner => some inner

/-- Modelled from the spec: the `clientSettings` type declaration is not in
`backend.go`. The resolved connection parameters are opaque to the backend,
which only stores and passes them on; a settings record is identified by a
number. -/
structure clientSettings where
  id : Nat
  deriving DecidableEq, Repr

/-- Modelled from the spec: `api.AzureProvider`, the authenticated provider
handle, is opaque to the backend; a handle is identified by a number. -/
structure AzureProvider where
  id : Nat
  deriving DecidableEq, Repr

/-- The value of `b.System()`, the host's system view used as the password
policy generator; opaque to the backend. -/
structure SystemView where
  id : Nat
  deriving DecidableEq, Repr

/-- The struct `api.Passwords`, with the two fields the literal at lines 143-146 sets. -/
structure Passwords where
  PolicyGenerator : SystemView
  PolicyName : String
  deriving DecidableEq, Repr

/-- Modelled from the spec: the `azureConfig` type declaration is not in
`backend.go`. It has the four fields `backend.go` reads; `Connection` stands
for the remaining fields (tenant, subscription, credentials), which only
`getClientSettings` reads. -/
structure azureConfig where
  PasswordPolicy : String
  UseMsGraphAPI : Bool
  RootRotationCadence : Int
  NextRootRotationTime : Int
  Connection : String
  deriving DecidableEq, Repr

/-- The value of `new(azureConfig)`: every field has its zero value. -/
def azureConfig.new : azureConfig :=
  ⟨"", false, 0, 0, ""⟩

/-- The method `time.Time.IsZero`: the instant is the zero value of `time.Time`. -/
def IsZero (t : Int) : Bool :=
  t == 0

/-- The struct `client`, with the four fields the literal at lines 153-158 sets. -/
structure client where
  provider : AzureProvider
  settings : Option clientSettings
  expiration : Int
  passwords : Passwords
  deriving DecidableEq, Repr

/-- Modelled from the spec: the method `(*client).Valid` is not in
`backend.go`. A cached client is valid iff it is non-empty and its expiration
is strictly in the future; `now` is the reading of `time.Now()` the method
takes. -/
def client.Valid (c : Option client) (now : Int) : Bool :=
  match c with
  | none => false
  | some c => decide (now < c.expiration)

/-- The cache fields of the struct `azureSecretBackend` (`client`, `settings`)
and the value `b.System()` of the embedded framework backend. -/
structure azureSecretBackend where
  client : Option AzureSecrets.client
  settings : Option clientSettings
  System : SystemView
  deriving DecidableEq, Repr

/-- The cache of a backend as `backend()` builds it: no client, no settings. -/
def backend (sys : SystemView) : azureSecretBackend :=
  ⟨none, none, sys⟩

/-- The constant `rootCredTickerID`. -/
def rootCredTickerID : String :=
  "root-creds"

/-! ## Collaborators -/

/-- What the collaborators of `getClient` answer during one call.

* `nowCheck`, `nowRecheck`: the readings of `time.Now()` in the two
  `b.client.Valid()` tests (lines 113 and 122);
* `nowStamp`: the reading of `time.Now()` at line 156;
* `getConfig`: the result of `b.getConfig(ctx, s)`, an error or a record
  pointer that is `nil` when storage holds no record;
* `getClientSettings`: the result of `b.getClientSettings(ctx, config)`.
  Modelled from the spec: the function is not in `backend.go`; when it
  succeeds it returns a settings record (never a `nil` pointer);
* `getProvider`: the result of the injected `b.getProvider`. -/
structure World where
  nowCheck : Int
  nowRecheck : Int
  nowStamp : Int
  getConfig : Except GoError (Option azureConfig)
  getClientSettings : azureConfig → Except GoError clientSettings
  getProvider : Option clientSettings → Bool → Passwords → Except GoError AzureProvider

/-- A call `getClient` makes to a collaborator, with its arguments. -/
inductive Call where
  | getConfig
  | getClientSettings (config : azureConfig)
  | getProvider (settings : Option clientSettings) (useMsGraphAPI : Bool) (passwords : Passwords)
  deriving DecidableEq, Repr

/-- The error, if any, that a recorded call gets from its collaborator. -/
def Call.failure (w : World) : Call → Option GoError
  | .getConfig =>
    match w.getConfig with
    | .error err => some err
    | .ok _ => none
  | .getClientSettings config =>
    match w.getClientSettings config with
    | .error err => some err
    | .ok _ => none
  | .getProvider settings useMsGraphAPI passwords =>
    match w.getProvider settings useMsGraphAPI passwords with
    | .error err => some err
    | .ok _ => none

/-- Whether a recorded call is a settings derivation. -/
def Call.isDerivation : Call → Bool
  | .getClientSettings _ => true
  | _ => false

/-- Whether a recorded call is a provider construction. -/
def Call.isProvider : Call → Bool
  | .getProvider _ _ _ => true
  | _ => false

/-- The number of settings derivations among recorded calls. -/
def derivations (calls : List Call) : Nat :=
  (calls.filter Call.isDerivation).length

/-- The number of provider constructions among recorded calls. -/
def constructions (calls : List Call) : Nat :=
  (calls.filter Call.isProvider).length

/-- How a Go call ends: it returns its results, or it panics (here: a `nil`
pointer dereference). -/
inductive Outcome (α : Type) where
  | returned (results : α)
  | panicked
  deriving DecidableEq, Repr

/-- One run of a method of the backend: how it ended, the backend afterwards
and the collaborator calls it made, in order. -/
structure Exec (α : Type) where
  outcome : Outcome α
  backend : azureSecretBackend
  calls : List Call

/-! ## Operations -/

/-- The method `reset` (lines 95-101): both cache fields become `nil`. -/
def reset (b : azureSecretBackend) : azureSecretBackend :=
  ⟨none, none, b.System⟩

/-- The method `invalidate` (lines 103-108): a reset on key `"config"`,
nothing on any other key. -/
def invalidate (b : azureSecretBackend) (key : String) : azureSecretBackend :=
  if key = "config" then reset b else b

/-- Lines 143-161 of `getClient`, entered with the local `config` (still `nil`
when storage held no record and the settings were already cached) and the
calls made so far. Reading `config.PasswordPolicy` through a `nil` pointer
panics; the deferred unlock runs and the cache is as it was. -/
def getClient.build (clientLifetime : Int) (w : World) (b : azureSecretBackend)
    (config : Option azureConfig) (calls : List Call) :
    Exec (Option client × Option GoError) :=
  match config with
  | none => ⟨.panicked, b, calls⟩
  | some config =>
    let passwords : Passwords := ⟨b.System, config.PasswordPolicy⟩
    let call := Call.getProvider b.settings config.UseMsGraphAPI passwords
    match w.getProvider b.settings config.UseMsGraphAPI passwords with
    | .error err => ⟨.returned (none, some err), b, calls ++ [call]⟩
    | .ok p =>
      let c : client := ⟨p, b.settings, w.nowStamp + clientLifetime, passwords⟩
      ⟨.returned (some c, none), ⟨some c, b.settings, b.System⟩, calls ++ [call]⟩

/-- Lines 132-134 of `getClient`: `if config == nil { config = new(azureConfig) }`. -/
def getClient.orNew : Option azureConfig → azureConfig
  | none => azureConfig.new
  | some config => config

/-- The method `getClient` (lines 110-162). `clientLifetime` is the constant
of that name, declared outside `backend.go`. The results are the pair
`(*client, error)`. -/
def getClient (clientLifetime : Int) (w : World) (b : azureSecretBackend) :
    Exec (Option client × Option GoError) :=
  if client.Valid b.client w.nowCheck then
    ⟨.returned (b.client, none), b, []⟩
  else if client.Valid b.client w.nowRecheck then
    ⟨.returned (b.client, none), b, []⟩
  else
    match w.getConfig with
    | .error err => ⟨.returned (none, some err), b, [.getConfig]⟩
    | .ok config =>
      match b.settings with
      | none =>
        let config : azureConfig := getClient.orNew config
        match w.getClientSettings config with
        | .error err =>
          ⟨.returned (none, some err), b, [.getConfig, .getClientSettings config]⟩
        | .ok settings =>
          getClient.build clientLifetime w ⟨b.client, some settings, b.System⟩ (some config)
            [.getConfig, .getClientSettings config]
      | some _ =>
        getClient.build clientLifetime w b config [.getConfig]

/-- The arguments of the one call `b.ticker.Run(cadence, work, ticker.ID(id),
ticker.FirstRun(firstRun))`; the work function, which only closes over the
storage handle, is left out. -/
structure RunCall where
  cadence : Int
  id : String
  firstRun : Int
  deriving DecidableEq, Repr

/-- What the collaborators of the backend's initialization hook answer:
the result of `b.getConfig` and the error `b.ticker.Run` returns for a
registration (`nil` on success). -/
structure InitWorld where
  getConfig : Except GoError (Option azureConfig)
  tickerRun : RunCall → Option GoError

/-- The method `initialize` of the backend (lines 164-189), the framework's
`InitializeFunc`: the returned error and the registration calls made on the
ticker, in order. -/
def initializeFunc (w : InitWorld) : Option GoError × List RunCall :=
  match w.getConfig with
  | .error err => (some (.wrapped "failed to retrieve configuration: " err), [])
  | .ok none => (none, [])
  | .ok (some cfg) =>
    if IsZero cfg.NextRootRotationTime then
      (none, [])
    else
      let firstRun := cfg.NextRootRotationTime
      let call : RunCall := ⟨cfg.RootRotationCadence, rootCredTickerID, firstRun⟩
      (w.tickerRun call, [call])

/-! ## Sequences of operations -/

/-- An operation on the cache, as a caller of the backend issues it. -/
inductive Op where
  | reset
  | invalidate (key : String)
  | getClient (w : World)

/-- The backend after one operation. -/
def step (clientLifetime : Int) (b : azureSecretBackend) : Op → azureSecretBackend
  | .reset => reset b
  | .invalidate key => invalidate b key
  | .getClient w => (getClient clientLifetime w b).backend

/-- The backend after a sequence of operations. -/
def run (clientLifetime : Int) (b : azureSecretBackend) (ops : List Op) : azureSecretBackend :=
  ops.foldl (step clientLifetime) b

/-- The cache coherence property: a cached client comes with cached settings,
and carries those same settings. -/
def Coherent (b : azureSecretBackend) : Prop :=
  ∀ c, b.client = some c → b.settings ≠ none ∧ c.settings = b.settings

/-! ## Concrete inputs -/

/-- A system view. -/
def sys0 : SystemView :=
  ⟨0⟩

/-- A stored configuration with a password policy, the alternate API, an
hourly rotation cadence and a recorded next rotation. -/
def cfgA : azureConfig :=
  ⟨"policy-a", true, 3600, 5000, "tenant-a"⟩

/-- A stored configuration that differs from `cfgA` in the policy and the API flag. -/
def cfgB : azureConfig :=
  ⟨"policy-b", false, 3600, 5000, "tenant-b"⟩

/-- A world at instant `t` in which `getConfig` answers `config`, settings
derivation answers `derived` and provider construction answers `built`. -/
def worldAt (t : Int) (config : Except GoError (Option azureConfig))
    (derived : Except GoError clientSettings) (built : Except GoError AzureProvider) : World :=
  ⟨t, t, t, config, fun _ => derived, fun _ _ _ => built⟩

/-- Storage holds `cfgA` and every collaborator succeeds. -/
def okWorld (t : Int) : World :=
  worldAt t (.ok (some cfgA)) (.ok ⟨1⟩) (.ok ⟨7⟩)

/-- Storage holds no record and every collaborator succeeds. -/
def absentWorld (t : Int) : World :=
  worldAt t (.ok none) (.ok ⟨1⟩) (.ok ⟨7⟩)

/-- The storage read fails. -/
def storageFailWorld (t : Int) : World :=
  worldAt t (.error (.plain "storage unavailable")) (.ok ⟨1⟩) (.ok ⟨7⟩)

/-- Settings derivation fails. -/
def derivationFailWorld (t : Int) : World :=
  worldAt t (.ok (some cfgA)) (.error (.plain "no credentials")) (.ok ⟨7⟩)

/-- Provider construction fails. -/
def providerFailWorld (t : Int) : World :=
  worldAt t (.ok (some cfgA)) (.ok ⟨1⟩) (.error (.plain "provider unavailable"))

/-- A client built at instant 0 with a lifetime of 1800 from settings 1. -/
def clientA : client :=
  ⟨⟨7⟩, some ⟨1⟩, 1800, ⟨sys0, "policy-a"⟩⟩

/-- A backend whose cache holds `clientA` and its settings. -/
def cachedBackend : azureSecretBackend :=
  ⟨some clientA, some ⟨1⟩, sys0⟩

/-- A backend with cached settings and no client. -/
def settingsOnlyBackend : azureSecretBackend :=
  ⟨none, some ⟨1⟩, sys0⟩

/-- Storage now holds `cfgB`; a derivation would give other settings, and
provider construction gives a new handle. -/
def changedWorld (t : Int) : World :=
  worldAt t (.ok (some cfgB)) (.ok ⟨2⟩) (.ok ⟨8⟩)

/-- The client a rebuild in `changedWorld 2000` produces from cached settings 1. -/
def clientB : client :=
  ⟨⟨8⟩, some ⟨1⟩, 3800, ⟨sys0, "policy-b"⟩⟩

/-- The client a first build in `absentWorld 0` produces: default
configuration, settings 1. -/
def clientDefault : client :=
  ⟨⟨7⟩, some ⟨1⟩, 1800, ⟨sys0, ""⟩⟩

/-- A stored configuration with a cadence and no recorded next rotation. -/
def cfgCadenceOnly : azureConfig :=
  ⟨"", false, 3600, 0, "tenant-a"⟩

/-- A stored configuration with a recorded next rotation and no cadence. -/
def cfgTimeOnly : azureConfig :=
  ⟨"", false, 0, 5000, "tenant-a"⟩

/-- An initialization in which storage holds `config` and the ticker accepts
every registration. -/
def initWorld (config : Except GoError (Option azureConfig)) : InitWorld :=
  ⟨config, fun _ => none⟩

/-! ## The paths through `getClient` -/

/-- The fast path: a client that is valid at either test is returned as it is. -/
theorem getClient_of_valid (clientLifetime : Int) (w : World) (b : azureSecretBackend)
    (h : client.Valid b.client w.nowCheck = true ∨ client.Valid b.client w.nowRecheck = true) :
    getClient clientLifetime w b = ⟨.returned (b.client, none), b, []⟩ := by
  unfold getClient
  cases h1 : client.Valid b.client w.nowCheck
  · have h2 : client.Valid b.client w.nowRecheck = true := by
      rcases h with h | h
      · rw [h1] at h; cases h
      · exact h
    simp [h2]
  · simp

/-- The slow path stops at a failed storage read. -/
theorem getClient_of_storage_error (clientLifetime : Int) (w : World) (b : azureSecretBackend)
    (err : GoError)
    (h1 : client.Valid b.client w.nowCheck = false)
    (h2 : client.Valid b.client w.nowRecheck = false)
    (hc : w.getConfig = .error err) :
    getClient clientLifetime w b = ⟨.returned (none, some err), b, [.getConfig]⟩ := by
  simp [getClient, h1, h2, hc]

/-- The slow path stops at a failed settings derivation. -/
theorem getClient_of_derivation_error (clientLifetime : Int) (w : World)
    (b : azureSecretBackend) (config : Option azureConfig) (err : GoError)
    (h1 : client.Valid b.client w.nowCheck = false)
    (h2 : client.Valid b.client w.nowRecheck = false)
    (hc : w.getConfig = .ok config) (hs : b.settings = none)
    (hd : w.getClientSettings (getClient.orNew config) = .error err) :
    getClient clientLifetime w b =
      ⟨.returned (none, some err), b,
        [.getConfig, .getClientSettings (getClient.orNew config)]⟩ := by
  simp [getClient, h1, h2, hc, hs, hd]

/-- The slow path with no cached settings: the derived settings are stored
and lines 143-161 run on the configuration, defaulted when absent. -/
theorem getClient_of_derived (clientLifetime : Int) (w : World)
    (b : azureSecretBackend) (config : Option azureConfig) (s : clientSettings)
    (h1 : client.Valid b.client w.nowCheck = false)
    (h2 : client.Valid b.client w.nowRecheck = false)
    (hc : w.getConfig = .ok config) (hs : b.settings = none)
    (hd : w.getClientSettings (getClient.orNew config) = .ok s) :
    getClient clientLifetime w b =
      getClient.build clientLifetime w ⟨b.client, some s, b.System⟩
        (some (getClient.orNew config))
        [.getConfig, .getClientSettings (getClient.orNew config)] := by
  simp [getClient, h1, h2, hc, hs, hd]

/-- The slow path with cached settings: lines 143-161 run on the configuration
as loaded. -/
theorem getClient_of_cached_settings (clientLifetime : Int) (w : World)
    (b : azureSecretBackend) (config : Option azureConfig) (s : clientSettings)
    (h1 : client.Valid b.client w.nowCheck = false)
    (h2 : client.Valid b.client w.nowRecheck = false)
    (hc : w.getConfig = .ok config) (hs : b.settings = some s) :
    getClient clientLifetime w b = getClient.build clientLifetime w b config [.getConfig] := by
  simp [getClient, h1, h2, hc, hs]

/-- Lines 143-161 on a `nil` configuration: the dereference panics. -/
theorem build_of_nil (clientLifetime : Int) (w : World) (b : azureSecretBackend)
    (calls : List Call) :
    getClient.build clientLifetime w b none calls = ⟨.panicked, b, calls⟩ := by
  simp [getClient.build]

/-- Lines 143-161 when provider construction fails. -/
theorem build_of_provider_error (clientLifetime : Int) (w : World) (b : azureSecretBackend)
    (cfg : azureConfig) (calls : List Call) (err : GoError)
    (hp : w.getProvider b.settings cfg.UseMsGraphAPI ⟨b.System, cfg.PasswordPolicy⟩ = .error err) :
    getClient.build clientLifetime w b (some cfg) calls =
      ⟨.returned (none, some err), b,
        calls ++ [.getProvider b.settings cfg.UseMsGraphAPI ⟨b.System, cfg.PasswordPolicy⟩]⟩ := by
  simp [getClient.build, hp]

/-- Lines 143-161 when provider construction succeeds. -/
theorem build_of_provider_ok (clientLifetime : Int) (w : World) (b : azureSecretBackend)
    (cfg : azureConfig) (calls : List Call) (p : AzureProvider)
    (hp : w.getProvider b.settings cfg.UseMsGraphAPI ⟨b.System, cfg.PasswordPolicy⟩ = .ok p) :
    getClient.build clientLifetime w b (some cfg) calls =
      ⟨.returned
          (some ⟨p, b.settings, w.nowStamp + clientLifetime, ⟨b.System, cfg.PasswordPolicy⟩⟩,
            none),
        ⟨some ⟨p, b.settings, w.nowStamp + clientLifetime, ⟨b.System, cfg.PasswordPolicy⟩⟩,
          b.settings, b.System⟩,
        calls ++ [.getProvider b.settings cfg.UseMsGraphAPI ⟨b.System, cfg.PasswordPolicy⟩]⟩ := by
  simp [getClient.build, hp]

/-- Every run of `getClient` follows one of eight paths: the fast path, a
failed storage read, a failed derivation, a derivation followed by a failed or
a successful provider construction, and, with cached settings, a panic on an
absent configuration or a failed or successful provider construction. -/
theorem getClient_cases (clientLifetime : Int) (w : World) (b : azureSecretBackend) :
    ((client.Valid b.client w.nowCheck = true ∨ client.Valid b.client w.nowRecheck = true) ∧
      getClient clientLifetime w b = ⟨.returned (b.client, none), b, []⟩) ∨
    (client.Valid b.client w.nowCheck = false ∧ client.Valid b.client w.nowRecheck = false ∧
      ((∃ err, w.getConfig = .error err ∧
          getClient clientLifetime w b = ⟨.returned (none, some err), b, [.getConfig]⟩) ∨
       (∃ config err, w.getConfig = .ok config ∧ b.settings = none ∧
          w.getClientSettings (getClient.orNew config) = .error err ∧
          getClient clientLifetime w b =
            ⟨.returned (none, some err), b,
              [.getConfig, .getClientSettings (getClient.orNew config)]⟩) ∨
       (∃ config s err, w.getConfig = .ok config ∧ b.settings = none ∧
          w.getClientSettings (getClient.orNew config) = .ok s ∧
          w.getProvider (some s) (getClient.orNew config).UseMsGraphAPI
            ⟨b.System, (getClient.orNew config).PasswordPolicy⟩ = .error err ∧
          getClient clientLifetime w b =
            ⟨.returned (none, some err), ⟨b.client, some s, b.System⟩,
              [.getConfig, .getClientSettings (getClient.orNew config),
                .getProvider (some s) (getClient.orNew config).UseMsGraphAPI
                  ⟨b.System, (getClient.orNew config).PasswordPolicy⟩]⟩) ∨
       (∃ config s p, w.getConfig = .ok config ∧ b.settings = none ∧
          w.getClientSettings (getClient.orNew config) = .ok s ∧
          w.getProvider (some s) (getClient.orNew config).UseMsGraphAPI
            ⟨b.System, (getClient.orNew config).PasswordPolicy⟩ = .ok p ∧
          getClient clientLifetime w b =
            ⟨.returned
                (some ⟨p, some s, w.nowStamp + clientLifetime,
                  ⟨b.System, (getClient.orNew config).PasswordPolicy⟩⟩, none),
              ⟨some ⟨p, some s, w.nowStamp + clientLifetime,
                  ⟨b.System, (getClient.orNew config).PasswordPolicy⟩⟩, some s, b.System⟩,
              [.getConfig, .getClientSettings (getClient.orNew config),
                .getProvider (some s) (getClient.orNew config).UseMsGraphAPI
                  ⟨b.System, (getClient.orNew config).PasswordPolicy⟩]⟩) ∨
       (∃ s, w.getConfig = .ok none ∧ b.settings = some s ∧
          getClient clientLifetime w b = ⟨.panicked, b, [.getConfig]⟩) ∨
       (∃ cfg s err, w.getConfig = .ok (some cfg) ∧ b.settings = some s ∧
          w.getProvider (some s) cfg.UseMsGraphAPI ⟨b.System, cfg.PasswordPolicy⟩ = .error err ∧
          getClient clientLifetime w b =
            ⟨.returned (none, some err), b,
              [.getConfig,
                .getProvider (some s) cfg.UseMsGraphAPI ⟨b.System, cfg.PasswordPolicy⟩]⟩) ∨
       (∃ cfg s p, w.getConfig = .ok (some cfg) ∧ b.settings = some s ∧
          w.getProvider (some s) cfg.UseMsGraphAPI ⟨b.System, cfg.PasswordPolicy⟩ = .ok p ∧
          getClient clientLifetime w b =
            ⟨.returned
                (some ⟨p, some s, w.nowStamp + clientLifetime, ⟨b.System, cfg.PasswordPolicy⟩⟩,
                  none),
              ⟨some ⟨p, some s, w.nowStamp + clientLifetime, ⟨b.System, cfg.PasswordPolicy⟩⟩,
                some s, b.System⟩,
              [.getConfig,
                .getProvider (some s) cfg.UseMsGraphAPI ⟨b.System, cfg.PasswordPolicy⟩]⟩))) := by
  cases h1 : client.Valid b.client w.nowCheck
  · cases h2 : client.Valid b.client w.nowRecheck
    · refine Or.inr ⟨rfl, rfl, ?_⟩
      rcases hc : w.getConfig with err | config
      · exact Or.inl ⟨err, rfl, getClient_of_storage_error _ w b err h1 h2 hc⟩
      · rcases hs : b.settings with _ | s
        · rcases hd : w.getClientSettings (getClient.orNew config) with err | s
          · exact Or.inr (Or.inl ⟨config, err, rfl, rfl, hd,
              getClient_of_derivation_error _ w b config err h1 h2 hc hs hd⟩)
          · have hb := getClient_of_derived clientLifetime w b config s h1 h2 hc hs hd
            rcases hp : w.getProvider (some s) (getClient.orNew config).UseMsGraphAPI
              ⟨b.System, (getClient.orNew config).PasswordPolicy⟩ with err | p
            · refine Or.inr (Or.inr (Or.inl ⟨config, s, err, rfl, rfl, hd, hp, ?_⟩))
              rw [hb, build_of_provider_error _ w _ _ _ err hp]
              rfl
            · refine Or.inr (Or.inr (Or.inr (Or.inl ⟨config, s, p, rfl, rfl, hd, hp, ?_⟩)))
              rw [hb, build_of_provider_ok _ w _ _ _ p hp]
              rfl
        · have hb := getClient_of_cached_settings clientLifetime w b config s h1 h2 hc hs
          rcases config with _ | cfg
          · refine Or.inr (Or.inr (Or.inr (Or.inr (Or.inl ⟨s, rfl, rfl, ?_⟩))))
            rw [hb, build_of_nil]
          · rcases hp : w.getProvider (some s) cfg.UseMsGraphAPI
              ⟨b.System, cfg.PasswordPolicy⟩ with err | p
            · refine Or.inr (Or.inr (Or.inr (Or.inr (Or.inr (Or.inl
                ⟨cfg, s, err, rfl, rfl, hp, ?_⟩)))))
              rw [← hs] at hp
              rw [hb, build_of_provider_error _ w _ _ _ err hp, hs]
              rfl
            · refine Or.inr (Or.inr (Or.inr (Or.inr (Or.inr (Or.inr
                ⟨cfg, s, p, rfl, rfl, hp, ?_⟩)))))
              rw [← hs] at hp
              rw [hb, build_of_provider_ok _ w _ _ _ p hp, hs]
              rfl
    · exact Or.inl ⟨Or.inr rfl, getClient_of_valid _ w b (Or.inr h2)⟩
  · exact Or.inl ⟨Or.inl rfl, getClient_of_valid _ w b (Or.inl h1)⟩

/-- One run of `getClient` derives settings at most once. -/
theorem getClient_derivations_le_one (clientLifetime : Int) (w : World)
    (b : azureSecretBackend) :
    derivations (getClient clientLifetime w b).calls ≤ 1 := by
  rcases getClient_cases clientLifetime w b with
    ⟨_, heq⟩ | ⟨_, _, ⟨err, hc, heq⟩ | ⟨config, err, hc, hs, hd, heq⟩ |
      ⟨config, s, err, hc, hs, hd, hp, heq⟩ | ⟨config, s, p, hc, hs, hd, hp, heq⟩ |
      ⟨s, hc, hs, heq⟩ | ⟨cfg, s, err, hc, hs, hp, heq⟩ | ⟨cfg, s, p, hc, hs, hp, heq⟩⟩
  all_goals (rw [heq])
  all_goals simp [derivations, Call.isDerivation]

/-- With cached settings, `getClient` derives no settings. -/
theorem getClient_derivations_of_settings (clientLifetime : Int) (w : World)
    (b : azureSecretBackend) (s : clientSettings) (hset : b.settings = some s) :
    derivations (getClient clientLifetime w b).calls = 0 := by
  rcases getClient_cases clientLifetime w b with
    ⟨_, heq⟩ | ⟨_, _, ⟨err, hc, heq⟩ | ⟨config, err, hc, hs, hd, heq⟩ |
      ⟨config, s, err, hc, hs, hd, hp, heq⟩ | ⟨config, s, p, hc, hs, hd, hp, heq⟩ |
      ⟨s, hc, hs, heq⟩ | ⟨cfg, s, err, hc, hs, hp, heq⟩ | ⟨cfg, s, p, hc, hs, hp, heq⟩⟩
  all_goals (rw [heq])
  all_goals simp_all [derivations, Call.isDerivation]

/-- A run of `getClient` that returns a client either derived nothing (the
fast path) or leaves settings in the cache. -/
theorem getClient_success_settings (clientLifetime : Int) (w : World)
    (b : azureSecretBackend) (c : client)
    (hok : (getClient clientLifetime w b).outcome = .returned (some c, none)) :
    derivations (getClient clientLifetime w b).calls = 0 ∨
      ∃ s, (getClient clientLifetime w b).backend.settings = some s := by
  rcases getClient_cases clientLifetime w b with
    ⟨_, heq⟩ | ⟨_, _, ⟨err, hc, heq⟩ | ⟨config, err, hc, hs, hd, heq⟩ |
      ⟨config, s, err, hc, hs, hd, hp, heq⟩ | ⟨config, s, p, hc, hs, hd, hp, heq⟩ |
      ⟨s, hc, hs, heq⟩ | ⟨cfg, s, err, hc, hs, hp, heq⟩ | ⟨cfg, s, p, hc, hs, hp, heq⟩⟩
  all_goals (rw [heq] at hok ⊢)
  all_goals simp_all [derivations, Call.isDerivation]

/-- The initial cache is coherent. -/
theorem backend_coherent (sys : SystemView) : Coherent (backend sys) := by
  intro c hc
  simp [backend] at hc

/-- A reset gives a coherent cache. -/
theorem reset_coherent (b : azureSecretBackend) : Coherent (reset b) := by
  intro c hc
  simp [reset] at hc

/-- Coherence is kept by `getClient`, whatever the collaborators answer. -/
theorem getClient_coherent (clientLifetime : Int) (w : World) (b : azureSecretBackend)
    (hb : Coherent b) : Coherent (getClient clientLifetime w b).backend := by
  rcases getClient_cases clientLifetime w b with
    ⟨_, heq⟩ | ⟨_, _, ⟨err, hc, heq⟩ | ⟨config, err, hc, hs, hd, heq⟩ |
      ⟨config, s, err, hc, hs, hd, hp, heq⟩ | ⟨config, s, p, hc, hs, hd, hp, heq⟩ |
      ⟨s, hc, hs, heq⟩ | ⟨cfg, s, err, hc, hs, hp, heq⟩ | ⟨cfg, s, p, hc, hs, hp, heq⟩⟩
  all_goals (rw [heq])
  all_goals first
    | exact hb
    | (intro c hcl
       simp only [Option.some.injEq] at hcl
       subst hcl
       simp)
    | (intro c hcl
       have hnone := hb c hcl
       rw [hs] at hnone
       exact absurd rfl hnone.1)

/-- Coherence is kept by every operation. -/
theorem step_coherent (clientLifetime : Int) (b : azureSecretBackend) (op : Op)
    (hb : Coherent b) : Coherent (step clientLifetime b op) := by
  cases op with
  | reset => exact reset_coherent b
  | invalidate key =>
    show Coherent (invalidate b key)
    unfold invalidate
    by_cases hk : key = "config"
    · rw [if_pos hk]
      exact reset_coherent b
    · rw [if_neg hk]
      exact hb
  | getClient w => exact getClient_coherent clientLifetime w b hb

/-- Coherence is kept by every sequence of operations. -/
theorem run_coherent (clientLifetime : Int) (ops : List Op) (b : azureSecretBackend)
    (hb : Coherent b) : Coherent (run clientLifetime b ops) := by
  induction ops generalizing b with
  | nil => exact hb
  | cons op ops ih => exact ih (step clientLifetime b op) (step_coherent clientLifetime b op hb)

/-! ## Supporting results on the slow path -/

/-- When the configuration is present, or the settings are not cached yet,
and every collaborator succeeds, the slow path builds, returns and caches the
new client. -/
theorem getClient_slow_path_post (clientLifetime : Int) (w : World)
    (b : azureSecretBackend) (config : Option azureConfig) (s : clientSettings)
    (p : AzureProvider)
    (h1 : client.Valid b.client w.nowCheck = false)
    (h2 : client.Valid b.client w.nowRecheck = false)
    (hc : w.getConfig = .ok config)
    (hpresent : config ≠ none ∨ b.settings = none)
    (hd : b.settings = none → w.getClientSettings (getClient.orNew config) = .ok s)
    (hs : b.settings ≠ none → b.settings = some s)
    (hp : w.getProvider (some s) (getClient.orNew config).UseMsGraphAPI
      ⟨b.System, (getClient.orNew config).PasswordPolicy⟩ = .ok p) :
    (getClient clientLifetime w b).outcome =
      .returned (some ⟨p, some s, w.nowStamp + clientLifetime,
        ⟨b.System, (getClient.orNew config).PasswordPolicy⟩⟩, none) ∧
    (getClient clientLifetime w b).backend =
      ⟨some ⟨p, some s, w.nowStamp + clientLifetime,
        ⟨b.System, (getClient.orNew config).PasswordPolicy⟩⟩, some s, b.System⟩ ∧
    (getClient clientLifetime w b).calls.getLast? =
      some (.getProvider (some s) (getClient.orNew config).UseMsGraphAPI
        ⟨b.System, (getClient.orNew config).PasswordPolicy⟩) ∧
    constructions (getClient clientLifetime w b).calls = 1 ∧
    (∀ t, client.Valid (getClient clientLifetime w b).backend.client t = true ↔
      t < w.nowStamp + clientLifetime) := by
  rcases hset : b.settings with _ | s0
  · have hd := hd hset
    rw [getClient_of_derived clientLifetime w b config s h1 h2 hc hset hd,
      build_of_provider_ok _ w _ _ _ p hp]
    simp [constructions, Call.isProvider, client.Valid]
  · have hs0 := hs (by simp [hset])
    rw [hset] at hs0
    have hss : s0 = s := Option.some.inj hs0
    subst hss
    rcases config with _ | cfg
    · rcases hpresent with h | h
      · exact absurd rfl h
      · rw [hset] at h; cases h
    · have hp2 : w.getProvider b.settings cfg.UseMsGraphAPI ⟨b.System, cfg.PasswordPolicy⟩ =
          .ok p := by
        rw [hset]; exact hp
      rw [getClient_of_cached_settings clientLifetime w b (some cfg) s0 h1 h2 hc hset,
        build_of_provider_ok _ w _ _ _ p hp2, hset]
      simp [constructions, Call.isProvider, client.Valid, getClient.orNew]

/-- The slow-path postcondition on an expired client whose settings are cached,
while storage holds `cfgB`: the new client expires at 2000 + 1800. -/
theorem getClient_slow_path_post_rebuild :
    (getClient 1800 (changedWorld 2000) cachedBackend).outcome =
      .returned (some clientB, none) ∧
    (getClient 1800 (changedWorld 2000) cachedBackend).backend =
      ⟨some clientB, some ⟨1⟩, sys0⟩ :=
  ⟨(getClient_slow_path_post 1800 (changedWorld 2000) cachedBackend (some cfgB) ⟨1⟩ ⟨8⟩
      rfl rfl rfl (Or.inl (by simp)) (by intro h; cases h) (fun _ => rfl) rfl).1,
    (getClient_slow_path_post 1800 (changedWorld 2000) cachedBackend (some cfgB) ⟨1⟩ ⟨8⟩
      rfl rfl rfl (Or.inl (by simp)) (by intro h; cases h) (fun _ => rfl) rfl).2.1⟩

/-- With no cached settings, an absent configuration is replaced by the default
one: provider construction gets the flag `false` and an empty policy name, and
the call succeeds when the collaborators do. -/
theorem getClient_absent_config_default (clientLifetime : Int) (w : World)
    (b : azureSecretBackend) (s : clientSettings) (p : AzureProvider)
    (h1 : client.Valid b.client w.nowCheck = false)
    (h2 : client.Valid b.client w.nowRecheck = false)
    (hc : w.getConfig = .ok none) (hs : b.settings = none)
    (hd : w.getClientSettings azureConfig.new = .ok s)
    (hp : w.getProvider (some s) false ⟨b.System, ""⟩ = .ok p) :
    (getClient clientLifetime w b).outcome =
      .returned (some ⟨p, some s, w.nowStamp + clientLifetime, ⟨b.System, ""⟩⟩, none) ∧
    (getClient clientLifetime w b).calls =
      [.getConfig, .getClientSettings azureConfig.new,
        .getProvider (some s) false ⟨b.System, ""⟩] := by
  have hd2 : w.getClientSettings (getClient.orNew none) = .ok s := hd
  rw [getClient_of_derived clientLifetime w b none s h1 h2 hc hs hd2]
  have hp2 : w.getProvider (some s) (getClient.orNew none).UseMsGraphAPI
      ⟨b.System, (getClient.orNew none).PasswordPolicy⟩ = .ok p := hp
  rw [build_of_provider_ok _ w ⟨b.client, some s, b.System⟩ (getClient.orNew none) _ p hp2]
  exact ⟨rfl, rfl⟩

/-! ## Failure atomicity -/

/-- Counterexample to C1 as stated: from the empty cache, with a successful
settings derivation and a failing provider construction, `getClient` returns
the provider error and the cached settings, unset before the call, are set
after it. -/
theorem getClient_error_not_atomic :
    (backend sys0).settings = none ∧
    (getClient 1800 (providerFailWorld 0) (backend sys0)).outcome =
      .returned (none, some (.plain "provider unavailable")) ∧
    (getClient 1800 (providerFailWorld 0) (backend sys0)).backend.settings = some ⟨1⟩ ∧
    (getClient 1800 (providerFailWorld 0) (backend sys0)).backend ≠ backend sys0 := by
  decide

/-- C1, amended: when `getClient` returns an error the cached client is the one
from before the call. The whole cache is unchanged when settings were cached
before the call, when the storage read fails and when settings derivation
fails. When settings were unset and derivation succeeds (so that the error is
the one of provider construction), the cached settings after the call are the
newly derived ones and nothing else changes. -/
theorem getClient_error_cache (clientLifetime : Int) (w : World) (b : azureSecretBackend)
    (c : Option client) (e : GoError)
    (h : (getClient clientLifetime w b).outcome = .returned (c, some e)) :
    (getClient clientLifetime w b).backend.client = b.client ∧
    (b.settings ≠ none → (getClient clientLifetime w b).backend = b) ∧
    (∀ err, w.getConfig = .error err → (getClient clientLifetime w b).backend = b) ∧
    (∀ config err, w.getConfig = .ok config →
        w.getClientSettings (getClient.orNew config) = .error err →
        (getClient clientLifetime w b).backend = b) ∧
    (∀ config s, b.settings = none → w.getConfig = .ok config →
        w.getClientSettings (getClient.orNew config) = .ok s →
        (getClient clientLifetime w b).backend = ⟨b.client, some s, b.System⟩) := by
  rcases getClient_cases clientLifetime w b with
    ⟨_, heq⟩ | ⟨_, _, ⟨err, hc, heq⟩ | ⟨config, err, hc, hs, hd, heq⟩ |
      ⟨config, s, err, hc, hs, hd, hp, heq⟩ | ⟨config, s, p, hc, hs, hd, hp, heq⟩ |
      ⟨s, hc, hs, heq⟩ | ⟨cfg, s, err, hc, hs, hp, heq⟩ | ⟨cfg, s, p, hc, hs, hp, heq⟩⟩
  all_goals (rw [heq] at h ⊢)
  all_goals simp_all
  · intro config2 s2 hcfg hd2
    subst hcfg
    rw [hd] at hd2
    cases hd2
  · refine ⟨?_, ?_⟩
    · intro config2 err2 hcfg hd2
      subst hcfg
      rw [hd] at hd2
      cases hd2
    · intro config2 s2 hcfg hd2
      subst hcfg
      rw [hd] at hd2
      cases hd2
      rfl

/-- The amended C1 at the empty cache with a failing provider construction:
the client stays empty and the settings become the derived ones. -/
theorem getClient_error_cache_witness :
    (getClient 1800 (providerFailWorld 0) (backend sys0)).outcome =
      .returned (none, some (.plain "provider unavailable")) ∧
    (getClient 1800 (providerFailWorld 0) (backend sys0)).backend.client =
      (backend sys0).client ∧
    (getClient 1800 (providerFailWorld 0) (backend sys0)).backend =
      ⟨(backend sys0).client, some ⟨1⟩, (backend sys0).System⟩ :=
  ⟨rfl,
    (getClient_error_cache 1800 (providerFailWorld 0) (backend sys0) none
      (.plain "provider unavailable") rfl).1,
    (getClient_error_cache 1800 (providerFailWorld 0) (backend sys0) none
      (.plain "provider unavailable") rfl).2.2.2.2 (some cfgA) ⟨1⟩ rfl rfl rfl⟩

/-! ## Missing configuration -/

/-- C2 at a failing input: on a backend that was never configured the first
`getClient` (instant 0) treats the missing record as the default configuration
and caches client and settings; the next `getClient` after expiry (instant
1800), with the record still missing, reads the password policy through the
`nil` configuration and panics, having called only `getConfig`. -/
theorem getClient_absent_config_panics :
    (getClient 1800 (absentWorld 0) (backend sys0)).outcome =
      .returned (some clientDefault, none) ∧
    (getClient 1800 (absentWorld 0) (backend sys0)).backend =
      ⟨some clientDefault, some ⟨1⟩, sys0⟩ ∧
    (getClient 1800 (absentWorld 1800) ⟨some clientDefault, some ⟨1⟩, sys0⟩).outcome =
      .panicked ∧
    (getClient 1800 (absentWorld 1800) ⟨some clientDefault, some ⟨1⟩, sys0⟩).calls =
      [.getConfig] := by
  decide

/-! ## Error propagation -/

/-- C3: `getClient` returns error `e` exactly when a collaborator call it made
failed with `e`; the returned client is then `nil` and the failing call is the
last one made; every call before the last one succeeded; settings derivation
is called only when no settings are cached; and with cached settings the run
is the same whatever settings derivation would answer. This holds in every
state: on the fast path no call is made and no error is returned. -/
theorem getClient_error_propagation (clientLifetime : Int) (w : World) (b : azureSecretBackend) :
    (∀ e, (∃ c, (getClient clientLifetime w b).outcome = .returned (c, some e)) ↔
        ∃ call ∈ (getClient clientLifetime w b).calls, call.failure w = some e) ∧
    (∀ c e, (getClient clientLifetime w b).outcome = .returned (c, some e) →
        c = none ∧ ∃ call, (getClient clientLifetime w b).calls.getLast? = some call ∧
          call.failure w = some e) ∧
    (∀ call ∈ (getClient clientLifetime w b).calls.dropLast, call.failure w = none) ∧
    (derivations (getClient clientLifetime w b).calls ≠ 0 → b.settings = none) ∧
    (b.settings ≠ none → ∀ g,
        getClient clientLifetime
          ⟨w.nowCheck, w.nowRecheck, w.nowStamp, w.getConfig, g, w.getProvider⟩ b =
        getClient clientLifetime w b) := by
  refine ⟨?_, ?_, ?_, ?_, ?_⟩
  · intro e
    rcases getClient_cases clientLifetime w b with
      ⟨_, heq⟩ | ⟨_, _, ⟨err, hc, heq⟩ | ⟨config, err, hc, hs, hd, heq⟩ |
        ⟨config, s, err, hc, hs, hd, hp, heq⟩ | ⟨config, s, p, hc, hs, hd, hp, heq⟩ |
        ⟨s, hc, hs, heq⟩ | ⟨cfg, s, err, hc, hs, hp, heq⟩ | ⟨cfg, s, p, hc, hs, hp, heq⟩⟩
    all_goals (rw [heq])
    all_goals simp_all [Call.failure]
  · intro c e h
    rcases getClient_cases clientLifetime w b with
      ⟨_, heq⟩ | ⟨_, _, ⟨err, hc, heq⟩ | ⟨config, err, hc, hs, hd, heq⟩ |
        ⟨config, s, err, hc, hs, hd, hp, heq⟩ | ⟨config, s, p, hc, hs, hd, hp, heq⟩ |
        ⟨s, hc, hs, heq⟩ | ⟨cfg, s, err, hc, hs, hp, heq⟩ | ⟨cfg, s, p, hc, hs, hp, heq⟩⟩
    all_goals (rw [heq] at h ⊢)
    all_goals simp_all [Call.failure]
  · rcases getClient_cases clientLifetime w b with
      ⟨_, heq⟩ | ⟨_, _, ⟨err, hc, heq⟩ | ⟨config, err, hc, hs, hd, heq⟩ |
        ⟨config, s, err, hc, hs, hd, hp, heq⟩ | ⟨config, s, p, hc, hs, hd, hp, heq⟩ |
        ⟨s, hc, hs, heq⟩ | ⟨cfg, s, err, hc, hs, hp, heq⟩ | ⟨cfg, s, p, hc, hs, hp, heq⟩⟩
    all_goals (rw [heq])
    all_goals simp_all [Call.failure, List.dropLast]
  · intro h
    rcases getClient_cases clientLifetime w b with
      ⟨_, heq⟩ | ⟨_, _, ⟨err, hc, heq⟩ | ⟨config, err, hc, hs, hd, heq⟩ |
        ⟨config, s, err, hc, hs, hd, hp, heq⟩ | ⟨config, s, p, hc, hs, hd, hp, heq⟩ |
        ⟨s, hc, hs, heq⟩ | ⟨cfg, s, err, hc, hs, hp, heq⟩ | ⟨cfg, s, p, hc, hs, hp, heq⟩⟩
    all_goals (rw [heq] at h)
    all_goals simp_all [derivations, Call.isDerivation]
  · intro hs g
    rcases hset : b.settings with _ | s
    · exact absurd hset hs
    · simp [getClient, getClient.build, hset]

/-- C3 at the empty cache with a failing provider construction: the provider
error is returned, and the two calls before the failing one succeeded. -/
theorem getClient_error_propagation_witness :
    (∃ c, (getClient 1800 (providerFailWorld 0) (backend sys0)).outcome =
      .returned (c, some (.plain "provider unavailable"))) ∧
    (∃ call ∈ (getClient 1800 (providerFailWorld 0) (backend sys0)).calls,
      call.failure (providerFailWorld 0) = some (.plain "provider unavailable")) ∧
    (getClient 1800 (providerFailWorld 0) (backend sys0)).calls.dropLast =
      [.getConfig, .getClientSettings cfgA] :=
  ⟨⟨none, rfl⟩,
    ((getClient_error_propagation 1800 (providerFailWorld 0) (backend sys0)).1
      (.plain "provider unavailable")).mp ⟨none, rfl⟩,
    rfl⟩

/-! ## Fast path -/

/-- C4: when the cached client is non-empty and an instant read by a validity
test is before its expiration, `getClient` returns that client with no error,
calls no collaborator (no storage read, no settings derivation, no provider
construction) and leaves the cache unchanged. -/
theorem getClient_fast_path (clientLifetime : Int) (w : World) (b : azureSecretBackend)
    (c : client) (hc : b.client = some c)
    (hnow : w.nowCheck < c.expiration ∨ w.nowRecheck < c.expiration) :
    (getClient clientLifetime w b).outcome = .returned (some c, none) ∧
    (getClient clientLifetime w b).calls = [] ∧
    (getClient clientLifetime w b).backend = b := by
  have hv : client.Valid b.client w.nowCheck = true ∨
      client.Valid b.client w.nowRecheck = true := by
    rcases hnow with h | h
    · exact Or.inl (by simp [client.Valid, hc, h])
    · exact Or.inr (by simp [client.Valid, hc, h])
  rw [getClient_of_valid clientLifetime w b hv, hc]
  exact ⟨rfl, rfl, rfl⟩

/-- C4 at instant 10 on a cache holding a client that expires at 1800. -/
theorem getClient_fast_path_witness :
    cachedBackend.client = some clientA ∧
    ((okWorld 10).nowCheck < clientA.expiration ∨
      (okWorld 10).nowRecheck < clientA.expiration) ∧
    (getClient 1800 (okWorld 10) cachedBackend).outcome = .returned (some clientA, none) ∧
    (getClient 1800 (okWorld 10) cachedBackend).calls = [] ∧
    (getClient 1800 (okWorld 10) cachedBackend).backend = cachedBackend :=
  ⟨rfl, Or.inl (by decide),
    getClient_fast_path 1800 (okWorld 10) cachedBackend clientA rfl (Or.inl (by decide))⟩

/-! ## Slow-path postcondition -/

/-- C5 at its failing inputs: when settings are cached, the cached client is
invalid and storage holds no configuration record, `getClient` panics after
the storage read, whatever the other collaborators would answer: no client is
returned, no provider is constructed and the cache is left as it was. -/
theorem getClient_slow_path_panics (clientLifetime : Int) (w : World)
    (b : azureSecretBackend) (s : clientSettings)
    (hs : b.settings = some s)
    (h1 : client.Valid b.client w.nowCheck = false)
    (h2 : client.Valid b.client w.nowRecheck = false)
    (hc : w.getConfig = .ok none) :
    (getClient clientLifetime w b).outcome = .panicked ∧
    (getClient clientLifetime w b).backend = b ∧
    (getClient clientLifetime w b).calls = [.getConfig] := by
  rw [getClient_of_cached_settings clientLifetime w b none s h1 h2 hc hs, build_of_nil]
  exact ⟨rfl, rfl, rfl⟩

/-- C5 fails on a backend with cached settings and no client, in a world where
every collaborator succeeds and storage holds no record. -/
theorem getClient_slow_path_panics_witness :
    settingsOnlyBackend.settings = some ⟨1⟩ ∧
    client.Valid settingsOnlyBackend.client (absentWorld 0).nowCheck = false ∧
    client.Valid settingsOnlyBackend.client (absentWorld 0).nowRecheck = false ∧
    (absentWorld 0).getConfig = .ok none ∧
    (getClient 1800 (absentWorld 0) settingsOnlyBackend).outcome = .panicked ∧
    (getClient 1800 (absentWorld 0) settingsOnlyBackend).backend = settingsOnlyBackend ∧
    (getClient 1800 (absentWorld 0) settingsOnlyBackend).calls = [.getConfig] :=
  ⟨rfl, rfl, rfl, rfl,
    getClient_slow_path_panics 1800 (absentWorld 0) settingsOnlyBackend ⟨1⟩ rfl rfl rfl rfl⟩

/-! ## Settings reuse -/

/-- C6: with cached settings `s` and an invalid cached client, a `getClient`
that returns client `c` made no settings derivation, leaves `s` cached, caches
`c`, built `c` and the provider from `s`, and passed the flag and policy of
the configuration now in storage. Moreover, for two consecutive calls from any
state, the first of which returns a client, settings derivation is called at
most once in total. -/
theorem getClient_settings_reuse (clientLifetime : Int) (w : World) (b : azureSecretBackend)
    (s : clientSettings) (c : client)
    (hs : b.settings = some s)
    (h1 : client.Valid b.client w.nowCheck = false)
    (h2 : client.Valid b.client w.nowRecheck = false)
    (hok : (getClient clientLifetime w b).outcome = .returned (some c, none)) :
    derivations (getClient clientLifetime w b).calls = 0 ∧
    (getClient clientLifetime w b).backend.settings = some s ∧
    (getClient clientLifetime w b).backend.client = some c ∧
    c.settings = some s ∧
    (∃ cfg, w.getConfig = .ok (some cfg) ∧
      (getClient clientLifetime w b).calls =
        [.getConfig, .getProvider (some s) cfg.UseMsGraphAPI ⟨b.System, cfg.PasswordPolicy⟩] ∧
      w.getProvider (some s) cfg.UseMsGraphAPI ⟨b.System, cfg.PasswordPolicy⟩ =
        .ok c.provider) ∧
    (∀ (b0 : azureSecretBackend) (w1 w2 : World) (c1 : client),
      (getClient clientLifetime w1 b0).outcome = .returned (some c1, none) →
      derivations (getClient clientLifetime w1 b0).calls +
        derivations
          (getClient clientLifetime w2 (getClient clientLifetime w1 b0).backend).calls ≤ 1) := by
  refine ⟨getClient_derivations_of_settings clientLifetime w b s hs, ?_, ?_, ?_, ?_, ?_⟩
  · rcases getClient_cases clientLifetime w b with
      ⟨_, heq⟩ | ⟨_, _, ⟨err, hc, heq⟩ | ⟨config, err, hc, hs, hd, heq⟩ |
        ⟨config, s, err, hc, hs, hd, hp, heq⟩ | ⟨config, s, p, hc, hs, hd, hp, heq⟩ |
        ⟨s, hc, hs, heq⟩ | ⟨cfg, s, err, hc, hs, hp, heq⟩ | ⟨cfg, s, p, hc, hs, hp, heq⟩⟩
    all_goals (rw [heq] at hok ⊢)
    all_goals simp_all
  · rcases getClient_cases clientLifetime w b with
      ⟨_, heq⟩ | ⟨_, _, ⟨err, hc, heq⟩ | ⟨config, err, hc, hs, hd, heq⟩ |
        ⟨config, s, err, hc, hs, hd, hp, heq⟩ | ⟨config, s, p, hc, hs, hd, hp, heq⟩ |
        ⟨s, hc, hs, heq⟩ | ⟨cfg, s, err, hc, hs, hp, heq⟩ | ⟨cfg, s, p, hc, hs, hp, heq⟩⟩
    all_goals (rw [heq] at hok ⊢)
    all_goals simp_all
  · rcases getClient_cases clientLifetime w b with
      ⟨_, heq⟩ | ⟨_, _, ⟨err, hc, heq⟩ | ⟨config, err, hc, hs, hd, heq⟩ |
        ⟨config, s, err, hc, hs, hd, hp, heq⟩ | ⟨config, s, p, hc, hs, hd, hp, heq⟩ |
        ⟨s, hc, hs, heq⟩ | ⟨cfg, s, err, hc, hs, hp, heq⟩ | ⟨cfg, s, p, hc, hs, hp, heq⟩⟩
    all_goals (rw [heq] at hok)
    all_goals simp_all
    all_goals (rw [← hok])
  · rcases getClient_cases clientLifetime w b with
      ⟨_, heq⟩ | ⟨_, _, ⟨err, hc, heq⟩ | ⟨config, err, hc, hs, hd, heq⟩ |
        ⟨config, s, err, hc, hs, hd, hp, heq⟩ | ⟨config, s, p, hc, hs, hd, hp, heq⟩ |
        ⟨s, hc, hs, heq⟩ | ⟨cfg, s, err, hc, hs, hp, heq⟩ | ⟨cfg, s, p, hc, hs, hp, heq⟩⟩
    all_goals (rw [heq] at hok ⊢)
    all_goals simp_all
    all_goals (rw [← hok])
  · intro b0 w1 w2 c1 hfirst
    rcases getClient_success_settings clientLifetime w1 b0 c1 hfirst with h0 | ⟨s1, hs1⟩
    · have := getClient_derivations_le_one clientLifetime w2
        (getClient clientLifetime w1 b0).backend
      omega
    · have := getClient_derivations_le_one clientLifetime w1 b0
      have := getClient_derivations_of_settings clientLifetime w2
        (getClient clientLifetime w1 b0).backend s1 hs1
      omega

/-- C6 on an expired client whose settings were derived from `cfgA`, while
storage now holds `cfgB`. -/
theorem getClient_settings_reuse_witness :
    cachedBackend.settings = some ⟨1⟩ ∧
    client.Valid cachedBackend.client (changedWorld 2000).nowCheck = false ∧
    client.Valid cachedBackend.client (changedWorld 2000).nowRecheck = false ∧
    (getClient 1800 (changedWorld 2000) cachedBackend).outcome =
      .returned (some clientB, none) ∧
    derivations (getClient 1800 (changedWorld 2000) cachedBackend).calls = 0 ∧
    (getClient 1800 (changedWorld 2000) cachedBackend).backend.settings = some ⟨1⟩ ∧
    clientB.settings = some ⟨1⟩ :=
  ⟨rfl, rfl, rfl, rfl,
    (getClient_settings_reuse 1800 (changedWorld 2000) cachedBackend ⟨1⟩ clientB
      rfl rfl rfl rfl).1,
    (getClient_settings_reuse 1800 (changedWorld 2000) cachedBackend ⟨1⟩ clientB
      rfl rfl rfl rfl).2.1,
    (getClient_settings_reuse 1800 (changedWorld 2000) cachedBackend ⟨1⟩ clientB
      rfl rfl rfl rfl).2.2.2.1⟩

/-! ## Reset -/

/-- Counterexample to C7 as stated: when the storage read fails, the
`getClient` call after a reset makes no settings derivation and no provider
construction. -/
theorem reset_next_getClient_storage_error :
    (reset cachedBackend).client = none ∧
    (reset cachedBackend).settings = none ∧
    (getClient 1800 (storageFailWorld 0) (reset cachedBackend)).calls = [.getConfig] ∧
    derivations (getClient 1800 (storageFailWorld 0) (reset cachedBackend)).calls = 0 ∧
    constructions (getClient 1800 (storageFailWorld 0) (reset cachedBackend)).calls = 0 := by
  decide

/-- C7, amended: after `reset`, and after `invalidate` with key `"config"`,
client and settings are empty, and the next `getClient` takes the slow path
at any instant: it first loads the configuration. If the load fails that is
the only call. If the load succeeds, settings derivation is called exactly
once, on the loaded configuration (the default one when no record is stored).
If derivation fails too no provider is constructed; if it succeeds, provider
construction is called exactly once, with the newly derived settings. The run
does not depend on what was cached before the reset. -/
theorem reset_then_getClient (clientLifetime : Int) (w : World) (b : azureSecretBackend) :
    (reset b).client = none ∧ (reset b).settings = none ∧
    invalidate b "config" = reset b ∧
    (∃ rest, (getClient clientLifetime w (reset b)).calls = .getConfig :: rest) ∧
    (∀ err, w.getConfig = .error err →
      (getClient clientLifetime w (reset b)).calls = [.getConfig]) ∧
    (∀ config, w.getConfig = .ok config →
      derivations (getClient clientLifetime w (reset b)).calls = 1 ∧
      (getClient clientLifetime w (reset b)).calls.take 2 =
        [.getConfig, .getClientSettings (getClient.orNew config)]) ∧
    (∀ config err, w.getConfig = .ok config →
      w.getClientSettings (getClient.orNew config) = .error err →
      (getClient clientLifetime w (reset b)).calls =
        [.getConfig, .getClientSettings (getClient.orNew config)]) ∧
    (∀ config s, w.getConfig = .ok config →
      w.getClientSettings (getClient.orNew config) = .ok s →
      constructions (getClient clientLifetime w (reset b)).calls = 1 ∧
      (getClient clientLifetime w (reset b)).calls =
        [.getConfig, .getClientSettings (getClient.orNew config),
          .getProvider (some s) (getClient.orNew config).UseMsGraphAPI
            ⟨b.System, (getClient.orNew config).PasswordPolicy⟩]) ∧
    (∀ b2 : azureSecretBackend, b2.System = b.System →
      getClient clientLifetime w (reset b2) = getClient clientLifetime w (reset b)) := by
  refine ⟨rfl, rfl, by simp [invalidate], ?_, ?_, ?_, ?_, ?_, ?_⟩
  · rcases getClient_cases clientLifetime w (reset b) with
      ⟨hv, heq⟩ | ⟨_, _, ⟨err, hc, heq⟩ | ⟨config, err, hc, hs, hd, heq⟩ |
        ⟨config, s, err, hc, hs, hd, hp, heq⟩ | ⟨config, s, p, hc, hs, hd, hp, heq⟩ |
        ⟨s, hc, hs, heq⟩ | ⟨cfg, s, err, hc, hs, hp, heq⟩ | ⟨cfg, s, p, hc, hs, hp, heq⟩⟩
    · simp [reset, client.Valid] at hv
    all_goals (rw [heq])
    all_goals simp
  · intro err0 hc0
    rcases getClient_cases clientLifetime w (reset b) with
      ⟨hv, heq⟩ | ⟨_, _, ⟨err, hc, heq⟩ | ⟨config, err, hc, hs, hd, heq⟩ |
        ⟨config, s, err, hc, hs, hd, hp, heq⟩ | ⟨config, s, p, hc, hs, hd, hp, heq⟩ |
        ⟨s, hc, hs, heq⟩ | ⟨cfg, s, err, hc, hs, hp, heq⟩ | ⟨cfg, s, p, hc, hs, hp, heq⟩⟩
    · simp [reset, client.Valid] at hv
    all_goals (rw [heq])
    all_goals simp_all
  · intro config0 hc0
    rcases getClient_cases clientLifetime w (reset b) with
      ⟨hv, heq⟩ | ⟨_, _, ⟨err, hc, heq⟩ | ⟨config, err, hc, hs, hd, heq⟩ |
        ⟨config, s, err, hc, hs, hd, hp, heq⟩ | ⟨config, s, p, hc, hs, hd, hp, heq⟩ |
        ⟨s, hc, hs, heq⟩ | ⟨cfg, s, err, hc, hs, hp, heq⟩ | ⟨cfg, s, p, hc, hs, hp, heq⟩⟩
    · simp [reset, client.Valid] at hv
    all_goals (rw [heq])
    all_goals simp_all [derivations, Call.isDerivation, reset]
  · intro config0 err0 hc0 hd0
    rcases getClient_cases clientLifetime w (reset b) with
      ⟨hv, heq⟩ | ⟨_, _, ⟨err, hc, heq⟩ | ⟨config, err, hc, hs, hd, heq⟩ |
        ⟨config, s, err, hc, hs, hd, hp, heq⟩ | ⟨config, s, p, hc, hs, hd, hp, heq⟩ |
        ⟨s, hc, hs, heq⟩ | ⟨cfg, s, err, hc, hs, hp, heq⟩ | ⟨cfg, s, p, hc, hs, hp, heq⟩⟩
    · simp [reset, client.Valid] at hv
    all_goals (rw [heq])
    all_goals simp_all [reset]
  · intro config0 s0 hc0 hd0
    rcases getClient_cases clientLifetime w (reset b) with
      ⟨hv, heq⟩ | ⟨_, _, ⟨err, hc, heq⟩ | ⟨config, err, hc, hs, hd, heq⟩ |
        ⟨config, s, err, hc, hs, hd, hp, heq⟩ | ⟨config, s, p, hc, hs, hd, hp, heq⟩ |
        ⟨s, hc, hs, heq⟩ | ⟨cfg, s, err, hc, hs, hp, heq⟩ | ⟨cfg, s, p, hc, hs, hp, heq⟩⟩
    · simp [reset, client.Valid] at hv
    all_goals (rw [heq])
    all_goals simp_all [constructions, Call.isProvider, reset]
  · intro b2 hsys
    simp [reset, hsys]

/-- The amended C7 on a cache that held settings 1: after the reset the
provider is constructed from the newly derived settings 2. -/
theorem reset_then_getClient_witness :
    cachedBackend.settings = some ⟨1⟩ ∧
    (changedWorld 0).getConfig = .ok (some cfgB) ∧
    (changedWorld 0).getClientSettings cfgB = .ok ⟨2⟩ ∧
    constructions (getClient 1800 (changedWorld 0) (reset cachedBackend)).calls = 1 ∧
    (getClient 1800 (changedWorld 0) (reset cachedBackend)).calls =
      [.getConfig, .getClientSettings cfgB, .getProvider (some ⟨2⟩) false ⟨sys0, "policy-b"⟩] :=
  ⟨rfl, rfl, rfl,
    (reset_then_getClient 1800 (changedWorld 0) cachedBackend).2.2.2.2.2.2.2.1
      (some cfgB) ⟨2⟩ rfl rfl⟩

/-! ## Scheduler arming -/

/-- C8: `initialize` returns no error and registers nothing when the
configuration is absent or has a zero next-rotation instant; when the
configuration has a non-zero next-rotation instant `T` and cadence `C` it makes
exactly one registration, with identifier `"root-creds"`, cadence `C` and first
run `T`, and returns the error of that registration; when loading the
configuration fails it returns an error wrapping the storage error and
registers nothing. -/
theorem initialize_arming (w : InitWorld) :
    (w.getConfig = .ok none → initializeFunc w = (none, [])) ∧
    (∀ cfg, w.getConfig = .ok (some cfg) → cfg.NextRootRotationTime = 0 →
      initializeFunc w = (none, [])) ∧
    (∀ cfg, w.getConfig = .ok (some cfg) → cfg.NextRootRotationTime ≠ 0 →
      initializeFunc w =
        (w.tickerRun ⟨cfg.RootRotationCadence, "root-creds", cfg.NextRootRotationTime⟩,
          [⟨cfg.RootRotationCadence, "root-creds", cfg.NextRootRotationTime⟩])) ∧
    (∀ err, w.getConfig = .error err →
      (∃ e, (initializeFunc w).1 = some e ∧ e.Unwrap = some err ∧
        e = .wrapped "failed to retrieve configuration: " err) ∧
      (initializeFunc w).2 = []) := by
  refine ⟨?_, ?_, ?_, ?_⟩
  · intro hc
    simp [initializeFunc, hc]
  · intro cfg hc hz
    simp [initializeFunc, hc, IsZero, hz]
  · intro cfg hc hz
    simp [initializeFunc, hc, IsZero, hz, rootCredTickerID]
  · intro err hc
    simp [initializeFunc, hc, GoError.Unwrap]

/-- C8 on a configuration with cadence 3600 and next rotation at 5000. -/
theorem initialize_arming_witness :
    (initWorld (.ok (some cfgA))).getConfig = .ok (some cfgA) ∧
    cfgA.NextRootRotationTime ≠ 0 ∧
    initializeFunc (initWorld (.ok (some cfgA))) = (none, [⟨3600, "root-creds", 5000⟩]) :=
  ⟨rfl, by decide,
    (initialize_arming (initWorld (.ok (some cfgA)))).2.2.1 cfgA rfl (by decide)⟩

/-- Counterexample to C9 as stated: a configuration with a non-zero cadence and
a zero next-rotation instant registers no task, and a configuration with a
zero cadence and a non-zero next-rotation instant registers one. -/
theorem initialize_cadence_counterexample :
    cfgCadenceOnly.RootRotationCadence ≠ 0 ∧
    (initializeFunc (initWorld (.ok (some cfgCadenceOnly)))).2 = [] ∧
    cfgTimeOnly.RootRotationCadence = 0 ∧
    (initializeFunc (initWorld (.ok (some cfgTimeOnly)))).2 = [⟨0, "root-creds", 5000⟩] := by
  decide

/-- C9, amended: for every loaded configuration, `initialize` registers the
root-rotation task exactly when the next-rotation instant of the
configuration is non-zero, whatever its cadence; it registers at most that one
task. -/
theorem initialize_registers_iff (w : InitWorld) (cfg : azureConfig)
    (hc : w.getConfig = .ok (some cfg)) :
    ((initializeFunc w).2 ≠ [] ↔ cfg.NextRootRotationTime ≠ 0) ∧
    ((initializeFunc w).2 = [] ∨
      (initializeFunc w).2 =
        [⟨cfg.RootRotationCadence, rootCredTickerID, cfg.NextRootRotationTime⟩]) := by
  by_cases hz : cfg.NextRootRotationTime = 0
  · simp [initializeFunc, hc, IsZero, hz]
  · simp [initializeFunc, hc, IsZero, hz]

/-- The amended C9 on a configuration with next rotation at 5000. -/
theorem initialize_registers_iff_witness :
    (initWorld (.ok (some cfgA))).getConfig = .ok (some cfgA) ∧
    ((initializeFunc (initWorld (.ok (some cfgA)))).2 ≠ [] ↔ cfgA.NextRootRotationTime ≠ 0) ∧
    (initializeFunc (initWorld (.ok (some cfgA)))).2 = [⟨3600, "root-creds", 5000⟩] :=
  ⟨rfl, (initialize_registers_iff (initWorld (.ok (some cfgA))) cfgA rfl).1, by decide⟩

/-! ## Cache coherence -/

/-- C10: in every state reached from the initial cache by any sequence of
`reset`, `invalidate` and `getClient` calls, with any collaborator answers, a
cached client comes with cached settings and carries those same settings;
equivalently, an empty settings cache comes with an empty client cache. -/
theorem cache_coherence (clientLifetime : Int) (sys : SystemView) (ops : List Op) :
    (∀ c, (run clientLifetime (backend sys) ops).client = some c →
      (run clientLifetime (backend sys) ops).settings ≠ none ∧
      c.settings = (run clientLifetime (backend sys) ops).settings) ∧
    ((run clientLifetime (backend sys) ops).settings = none →
      (run clientLifetime (backend sys) ops).client = none) := by
  have h := run_coherent clientLifetime ops (backend sys) (backend_coherent sys)
  refine ⟨h, ?_⟩
  intro hs
  rcases hcl : (run clientLifetime (backend sys) ops).client with _ | c
  · rfl
  · exact absurd hs (h c hcl).1

end AzureSecrets
